import Mathlib

/-!
Shallow embedding of pty-wrapper.py: a PTY wrapper that spawns a child
process attached to a pseudo-terminal and relays bytes between the real
standard streams and the master side until the child exits, stdin reaches
EOF, or a termination signal arrives.  The embedding models the setup
phase of main (lines 15-67), the cleanup closure (lines 46-64) and one
iteration of the relay loop (lines 69-100) as explicit state-passing
functions driven by oracles for the operating-system effects.
-/

namespace PtyWrapper

/-- Terminal attributes returned by termios.tcgetattr, treated as an
opaque token; restoring means setting the current attributes to the
saved token. -/
structure TermAttrs where
  raw : Nat
deriving DecidableEq

/-- Python exceptions relevant to the wrapper: OSError (caught by the
local except OSError handlers) and any other Exception subclass (which
escapes them and reaches the outer except Exception handler). -/
inductive PyExc
  | osError
  | other (tag : Nat)
deriving DecidableEq

/-- File descriptors appearing in the program. -/
inductive Fd
  | stdinFd
  | stdoutFd
  | stderrFd
  | masterFd
  | slaveFd
deriving DecidableEq

/-- State of the child process handle (subprocess.Popen object).
running: the child is alive and has not been reaped.
exitedUnreaped: the child terminated but no wait/poll has collected its
status yet (returncode is still unset on the Popen object).
reaped: the status was collected; Popen.returncode is set, so further
terminate calls are no-ops. -/
inductive ProcState
  | running
  | exitedUnreaped (code : Int)
  | reaped (code : Int)
deriving DecidableEq

/-- Whether the child process is still alive. -/
def ProcState.isRunning : ProcState → Bool
  | .running => true
  | _ => false

/-- State threaded through cleanup and the relay loop: the master and
slave descriptor status, how many times the master was actually closed,
the child handle, the saved terminal attributes (old_settings, captured
once at startup and never mutated), the attributes currently in effect
on standard input, and how many times a tcsetattr restore was attempted. -/
structure SessionState where
  masterOpen : Bool
  slaveOpen : Bool
  masterCloseCount : Nat
  proc : ProcState
  oldSettings : Option TermAttrs
  termAttrs : TermAttrs
  restoreAttempts : Nat
deriving DecidableEq

/-- Ambient operating-system behaviour consulted by cleanup: whether the
child dies within the 1 second wait after SIGTERM, and whether the
tcsetattr call succeeds. -/
structure CleanupEnv where
  termRespondsInTime : Bool
  tcsetattrOk : Bool
deriving DecidableEq

/-- Lines 47-50: try os.close(master_fd) except: pass.  Closing an
already-closed descriptor raises OSError, absorbed by the bare except,
so the close count only grows when the descriptor was open. -/
def closeMasterStep (s : SessionState) : SessionState :=
  if s.masterOpen then
    { s with masterOpen := false, masterCloseCount := s.masterCloseCount + 1 }
  else
    s

/-- Lines 51-58: try proc.terminate() and proc.wait(timeout=1); on any
failure (including wait timing out) fall back to proc.kill().  When the
returncode is already set, terminate is a no-op and wait returns at
once; when the child is dead but unreaped, wait reaps it immediately;
when the child is alive it either dies from SIGTERM within the timeout
(reaped with the signal status) or the wait times out and the child is
killed without a further wait, leaving it dead but unreaped. -/
def terminateStep (env : CleanupEnv) (s : SessionState) : SessionState :=
  match s.proc with
  | .reaped c => { s with proc := .reaped c }
  | .exitedUnreaped c => { s with proc := .reaped c }
  | .running =>
      if env.termRespondsInTime then
        { s with proc := .reaped (-15) }
      else
        { s with proc := .exitedUnreaped (-9) }

/-- Lines 59-63: if old_settings, try tcsetattr(stdin, TCSADRAIN,
old_settings) except: pass.  The attempt happens whenever old_settings
was captured; the current attributes change only when the call
succeeds. -/
def restoreStep (env : CleanupEnv) (s : SessionState) : SessionState :=
  match s.oldSettings with
  | some a =>
      { s with
        restoreAttempts := s.restoreAttempts + 1,
        termAttrs := if env.tcsetattrOk then a else s.termAttrs }
  | none => s

/-- Lines 46-63: the body of cleanup, before the final sys.exit(0).
Every step is best-effort: a failure in one does not stop the next. -/
def cleanupBody (env : CleanupEnv) (s : SessionState) : SessionState :=
  restoreStep env (terminateStep env (closeMasterStep s))

/-- The end state visible after cleanup: master descriptor status, how
many times the master was released, whether the child still runs, and
the terminal attributes in effect. -/
def cleanupObservables (s : SessionState) : Bool × Nat × Bool × TermAttrs :=
  (s.masterOpen, s.masterCloseCount, s.proc.isRunning, s.termAttrs)

/-- Configuration passed to subprocess.Popen at lines 34-42: the argv
list [command] + args, the descriptors bound to the standard streams of
the child, close_fds, the preexec_fn=os.setsid session creation, and
the environment dictionary. -/
structure SpawnConfig where
  argvList : List String
  childStdin : Fd
  childStdout : Fd
  childStderr : Fd
  closeFds : Bool
  newSession : Bool
  environ : List (String × String)
deriving DecidableEq

/-- Observable side effects of the setup phase of main, in program
order. -/
inductive SetupAction
  | printUsage
  | sysExitA (code : Nat)
  | tcgetattrA (captured : Bool)
  | openptyA
  | spawnA (cfg : SpawnConfig)
  | closeSlaveA
  | installHandlers
deriving DecidableEq

/-- How the setup phase of main ends.  usageExit: sys.exit after the
usage message.  uncaughtError: an exception escaped main (Popen failed;
nothing catches it), with the master and slave descriptor status at
that point.  ready: the relay loop is about to start with the given
session state. -/
inductive SetupResult
  | usageExit (code : Nat)
  | uncaughtError (e : PyExc) (masterStillOpen slaveStillOpen : Bool)
  | ready (s : SessionState)
deriving DecidableEq

/-- Equality on Except results is decidable when it is on both the
error and the value types. -/
instance exceptDecEq {ε α : Type} [DecidableEq ε] [DecidableEq α] :
    DecidableEq (Except ε α)
  | .error e1, .error e2 =>
      if h : e1 = e2 then .isTrue (by rw [h])
      else .isFalse (by intro hc; injection hc; contradiction)
  | .error _, .ok _ => .isFalse (by intro hc; exact Except.noConfusion hc)
  | .ok _, .error _ => .isFalse (by intro hc; exact Except.noConfusion hc)
  | .ok a1, .ok a2 =>
      if h : a1 = a2 then .isTrue (by rw [h])
      else .isFalse (by intro hc; injection hc; contradiction)

/-- Oracles for the setup phase of main: sys.argv, os.environ, the
result of tcgetattr on standard input (none when it raised, e.g. stdin
is not a terminal), the attributes currently in effect on standard
input, and the result of subprocess.Popen. -/
structure MainEnv where
  argv : List String
  environ : List (String × String)
  tcgetattrRes : Option TermAttrs
  initialAttrs : TermAttrs
  spawnRes : Except PyExc Nat
deriving DecidableEq

/-- Lines 15-67 of main: the argc check and usage exit, the best-effort
tcgetattr capture, pty.openpty, the Popen spawn with the slave bound to
all three child streams, os.close(slave_fd), and the installation of
the SIGTERM/SIGINT handlers.  A Popen failure is not handled anywhere,
so it escapes main with both descriptors still open. -/
def setup (env : MainEnv) : SetupResult × List SetupAction :=
  match env.argv with
  | _prog :: command :: args =>
      let oldSettings := env.tcgetattrRes
      let cfg : SpawnConfig :=
        { argvList := command :: args,
          childStdin := .slaveFd,
          childStdout := .slaveFd,
          childStderr := .slaveFd,
          closeFds := true,
          newSession := true,
          environ := env.environ }
      let sAlloc : SessionState :=
        { masterOpen := true,
          slaveOpen := true,
          masterCloseCount := 0,
          proc := .running,
          oldSettings := oldSettings,
          termAttrs := env.initialAttrs,
          restoreAttempts := 0 }
      match env.spawnRes with
      | .error e =>
          (.uncaughtError e true true,
           [.tcgetattrA oldSettings.isSome, .openptyA, .spawnA cfg])
      | .ok _pid =>
          (.ready { sAlloc with slaveOpen := false },
           [.tcgetattrA oldSettings.isSome, .openptyA, .spawnA cfg,
            .closeSlaveA, .installHandlers])
  | _ =>
      (.usageExit 1, [.printUsage, .sysExitA 1])

/-- Oracles for one iteration of the relay loop: the result of
select.select (the pair of readiness flags for the master and for
stdin, or an exception), the results of the two os.read calls (only
consulted when the matching descriptor is ready), and what proc.poll()
would report when the child has not been reaped yet (some code once the
child has exited, none while it runs). -/
structure IterInput where
  selectRes : Except PyExc (Bool × Bool)
  masterRead : Except PyExc (List Nat)
  stdinRead : Except PyExc (List Nat)
  pollRes : Option Int
deriving DecidableEq

/-- State carried by the relay loop: the session plus the chunks written
so far to the real standard output and into the master side. -/
structure LoopState where
  session : SessionState
  stdoutWrites : List (List Nat)
  masterWrites : List (List Nat)
deriving DecidableEq

/-- Observable events inside one loop iteration, in program order. -/
inductive Action
  | selectWait (timeoutMs : Nat)
  | readMaster
  | writeStdout (data : List Nat)
  | readStdin
  | writeMaster (data : List Nat)
  | pollChild
  | cleanupRun
  | sysExitCall (code : Nat)
deriving DecidableEq

/-- The select timeout at line 72 is 0.1 seconds, i.e. 100 ms. -/
def selectTimeoutMs : Nat := 100

/-- Outcome of one branch of the loop body: fall through to the next
statement, escape with an exception not caught locally, or terminate
the process via cleanup and sys.exit. -/
inductive BranchOut
  | boOk (st : LoopState) (acts : List Action)
  | boExc (e : PyExc) (st : LoopState) (acts : List Action)
  | boExit (code : Nat) (st : LoopState) (acts : List Action)
deriving DecidableEq

/-- Lines 75-81: if the master is readable, read up to 4096 bytes and,
when the chunk is non-empty, write it to real stdout; OSError from the
read is swallowed by except OSError, while any other Exception escapes
this handler.  An empty chunk falls through silently. -/
def masterForwardBranch (readable : Bool) (readRes : Except PyExc (List Nat))
    (st : LoopState) : BranchOut :=
  if readable then
    match readRes with
    | .ok data =>
        if data = [] then
          .boOk st [.readMaster]
        else
          .boOk { st with stdoutWrites := st.stdoutWrites ++ [data] }
            [.readMaster, .writeStdout data]
    | .error .osError => .boOk st [.readMaster]
    | .error (.other t) => .boExc (.other t) st [.readMaster]
  else
    .boOk st []

/-- Lines 84-93: if stdin is readable, read up to 1024 bytes; a
non-empty chunk is written into the master (OSError on a closed master
is swallowed); an empty chunk means EOF and calls cleanup, whose
sys.exit(0) raises SystemExit, which is not an OSError and therefore
propagates out and ends the process with status 0.  OSError from the
read is swallowed; any other Exception escapes this handler. -/
def stdinForwardBranch (cenv : CleanupEnv) (readable : Bool)
    (readRes : Except PyExc (List Nat)) (st : LoopState) : BranchOut :=
  if readable then
    match readRes with
    | .ok data =>
        if data = [] then
          .boExit 0 { st with session := cleanupBody cenv st.session }
            [.readStdin, .cleanupRun, .sysExitCall 0]
        else
          if st.session.masterOpen then
            .boOk { st with masterWrites := st.masterWrites ++ [data] }
              [.readStdin, .writeMaster data]
          else
            .boOk st [.readStdin]
    | .error .osError => .boOk st [.readStdin]
    | .error (.other t) => .boExc (.other t) st [.readStdin]
  else
    .boOk st []

/-- Semantics of proc.poll(): once reaped, the stored returncode is
reported again; a dead unreaped child is reaped now; for a live child
the oracle decides whether it has just exited. -/
def pollProc (i : IterInput) (s : SessionState) : Option Int × SessionState :=
  match s.proc with
  | .reaped c => (some c, s)
  | .exitedUnreaped c => (some c, { s with proc := .reaped c })
  | .running =>
      match i.pollRes with
      | some c => (some c, { s with proc := .reaped c })
      | none => (none, s)

/-- Lines 95-97: when proc.poll() is not None, call cleanup, which ends
with sys.exit(0). -/
def pollBranch (cenv : CleanupEnv) (i : IterInput) (st : LoopState) : BranchOut :=
  match pollProc i st.session with
  | (some _, s2) =>
      .boExit 0 { st with session := cleanupBody cenv s2 }
        [.pollChild, .cleanupRun, .sysExitCall 0]
  | (none, s2) => .boOk { st with session := s2 } [.pollChild]

/-- Result of one full iteration of the while loop body (lines 70-97):
continue looping, exit the process via SystemExit from cleanup, or an
Exception escaping the body (to be caught at line 99). -/
inductive IterOutcome
  | next (st : LoopState)
  | sysExit (code : Nat) (st : LoopState)
  | exc (e : PyExc) (st : LoopState)
deriving DecidableEq

/-- One iteration of the relay loop, lines 70-97, returning the outcome
together with the trace of observable events in program order. -/
def runIter (cenv : CleanupEnv) (i : IterInput) (st : LoopState) :
    IterOutcome × List Action :=
  match i.selectRes with
  | .error e => (.exc e st, [.selectWait selectTimeoutMs])
  | .ok (masterReadable, stdinReadable) =>
      match masterForwardBranch masterReadable i.masterRead st with
      | .boExc e st1 a1 => (.exc e st1, .selectWait selectTimeoutMs :: a1)
      | .boExit c st1 a1 => (.sysExit c st1, .selectWait selectTimeoutMs :: a1)
      | .boOk st1 a1 =>
          match stdinForwardBranch cenv stdinReadable i.stdinRead st1 with
          | .boExc e st2 a2 =>
              (.exc e st2, .selectWait selectTimeoutMs :: (a1 ++ a2))
          | .boExit c st2 a2 =>
              (.sysExit c st2, .selectWait selectTimeoutMs :: (a1 ++ a2))
          | .boOk st2 a2 =>
              match pollBranch cenv i st2 with
              | .boExit c st3 a3 =>
                  (.sysExit c st3,
                   .selectWait selectTimeoutMs :: (a1 ++ a2 ++ a3))
              | .boExc e st3 a3 =>
                  (.exc e st3,
                   .selectWait selectTimeoutMs :: (a1 ++ a2 ++ a3))
              | .boOk st3 a3 =>
                  (.next st3,
                   .selectWait selectTimeoutMs :: (a1 ++ a2 ++ a3))

/-- Result of running the loop against a finite trace of iteration
oracles: either the trace ran out with the loop still going, or the
process exited with the given status. -/
inductive RunResult
  | stillRunning (st : LoopState)
  | exited (code : Nat) (st : LoopState)
deriving DecidableEq

/-- Lines 69-100: the while loop wrapped in try/except Exception.  A
SystemExit escaping an iteration ends the process with its status; an
Exception escaping the body is caught at line 99 and answered with
cleanup, whose own sys.exit(0) then ends the process with status 0. -/
def runLoop (cenv : CleanupEnv) : List IterInput → LoopState → RunResult
  | [], st => .stillRunning st
  | i :: rest, st =>
      match (runIter cenv i st).1 with
      | .next st2 => runLoop cenv rest st2
      | .sysExit c st2 => .exited c st2
      | .exc _ st2 =>
          .exited 0 { st2 with session := cleanupBody cenv st2.session }

/-- Rank of an event in the fixed per-iteration order: the multiplexed
wait, then master-to-stdout forwarding, then stdin-to-master
forwarding, then the child-exit poll, then cleanup and process exit. -/
def phaseRank : Action → Nat
  | .selectWait _ => 0
  | .readMaster => 1
  | .writeStdout _ => 1
  | .readStdin => 2
  | .writeMaster _ => 2
  | .pollChild => 3
  | .cleanupRun => 4
  | .sysExitCall _ => 5

/-- After the close step the master descriptor is closed, whatever the
starting state. -/
theorem closeMasterStep_masterOpen (s : SessionState) :
    (closeMasterStep s).masterOpen = false := by
  rcases s with ⟨mo, so, mc, pr, old, ta, ra⟩
  cases mo <;> simp [closeMasterStep]

/-- The close step only touches the master descriptor fields. -/
theorem closeMasterStep_fields (s : SessionState) :
    (closeMasterStep s).proc = s.proc ∧
    (closeMasterStep s).oldSettings = s.oldSettings ∧
    (closeMasterStep s).termAttrs = s.termAttrs ∧
    (closeMasterStep s).restoreAttempts = s.restoreAttempts := by
  rcases s with ⟨mo, so, mc, pr, old, ta, ra⟩
  cases mo <;> simp [closeMasterStep]

/-- The terminate step only touches the child process field. -/
theorem terminateStep_fields (env : CleanupEnv) (s : SessionState) :
    (terminateStep env s).masterOpen = s.masterOpen ∧
    (terminateStep env s).masterCloseCount = s.masterCloseCount ∧
    (terminateStep env s).oldSettings = s.oldSettings ∧
    (terminateStep env s).termAttrs = s.termAttrs ∧
    (terminateStep env s).restoreAttempts = s.restoreAttempts := by
  rcases s with ⟨mo, so, mc, pr, old, ta, ra⟩
  cases pr <;> cases htr : env.termRespondsInTime <;>
    simp [terminateStep, htr]

/-- After the terminate step the child is no longer running. -/
theorem terminateStep_notRunning (env : CleanupEnv) (s : SessionState) :
    (terminateStep env s).proc.isRunning = false := by
  rcases s with ⟨mo, so, mc, pr, old, ta, ra⟩
  cases pr <;> cases htr : env.termRespondsInTime <;>
    simp [terminateStep, htr, ProcState.isRunning]

/-- The restore step only touches the attribute fields. -/
theorem restoreStep_fields (env : CleanupEnv) (s : SessionState) :
    (restoreStep env s).masterOpen = s.masterOpen ∧
    (restoreStep env s).masterCloseCount = s.masterCloseCount ∧
    (restoreStep env s).proc = s.proc ∧
    (restoreStep env s).oldSettings = s.oldSettings := by
  rcases s with ⟨mo, so, mc, pr, old, ta, ra⟩
  cases old <;> simp [restoreStep]

/-- Cleanup always leaves the master descriptor closed. -/
theorem cleanupBody_masterOpen (env : CleanupEnv) (s : SessionState) :
    (cleanupBody env s).masterOpen = false := by
  unfold cleanupBody
  rw [(restoreStep_fields env _).1, (terminateStep_fields env _).1]
  exact closeMasterStep_masterOpen s

/-- Cleanup attempts the terminal restore exactly when old_settings was
captured, and otherwise leaves the attempt count unchanged. -/
theorem cleanupBody_restoreAttempts (env : CleanupEnv) (s : SessionState) :
    (cleanupBody env s).restoreAttempts =
      if s.oldSettings.isSome then s.restoreAttempts + 1
      else s.restoreAttempts := by
  unfold cleanupBody
  have h1 := (terminateStep_fields env (closeMasterStep s)).2.2.1
  have h2 := (closeMasterStep_fields s).2.1
  have h3 := (terminateStep_fields env (closeMasterStep s)).2.2.2.2
  have h4 := (closeMasterStep_fields s).2.2.2
  unfold restoreStep
  rw [h1, h2]
  cases s.oldSettings <;> simp [h3, h4]

/-- Cleanup applied to a reaped child leaves it reaped with the same
status. -/
theorem cleanupBody_proc_reaped (env : CleanupEnv) (s : SessionState)
    (c : Int) (h : s.proc = .reaped c) :
    (cleanupBody env s).proc = .reaped c := by
  unfold cleanupBody
  rw [(restoreStep_fields env _).2.2.1]
  unfold terminateStep
  rw [(closeMasterStep_fields s).1, h]

/-- C1 counterexample input: a live responsive child, an open master and
captured terminal attributes. -/
def sC1 : SessionState :=
  { masterOpen := true, slaveOpen := false, masterCloseCount := 0,
    proc := .running, oldSettings := some ⟨7⟩, termAttrs := ⟨3⟩,
    restoreAttempts := 0 }

/-- C1 counterexample environment: the child answers SIGTERM in time and
tcsetattr succeeds. -/
def cenvC1 : CleanupEnv := { termRespondsInTime := true, tcsetattrOk := true }

/-- C1 (counterexample): cleanup carries no performed-once guard, so a
second invocation re-attempts the terminal restore; after two
invocations the restore was attempted twice, refuting both the claim
that the attributes are restored at most once and the claim that only
the first effective invocation performs work. -/
theorem C1_counterexample :
    (cleanupBody cenvC1 (cleanupBody cenvC1 sC1)).restoreAttempts = 2 ∧
    ¬ (cleanupBody cenvC1 (cleanupBody cenvC1 sC1)).restoreAttempts ≤ 1 ∧
    cleanupBody cenvC1 (cleanupBody cenvC1 sC1) ≠ cleanupBody cenvC1 sC1 := by
  decide

/-- C1 (amended): invoking cleanup a second time does not crash (every
step is a total, exception-absorbing function), does not release the
master descriptor a second time (the close count is unchanged), and
leaves the observable end state — master closed, close count, child not
running, terminal attributes in effect — identical to that after a
single invocation; however each invocation does re-run the best-effort
steps, re-attempting the terminal restore, rather than being a no-op. -/
theorem C1_cleanup_reinvocation_same_end_state
    (env : CleanupEnv) (s : SessionState) :
    cleanupObservables (cleanupBody env (cleanupBody env s)) =
      cleanupObservables (cleanupBody env s) := by
  rcases env with ⟨tr, tok⟩
  rcases s with ⟨mo, so, mc, pr, old, ta, ra⟩
  cases pr <;> cases old <;> cases mo <;> cases tr <;> cases tok <;>
    simp [cleanupBody, restoreStep, terminateStep, closeMasterStep,
      cleanupObservables, ProcState.isRunning]

/-- C2 counterexample input: a nonexistent executable, so Popen raises
FileNotFoundError (an OSError). -/
def envC2 : MainEnv :=
  { argv := ["pty-wrapper.py", "no-such-program"], environ := [],
    tcgetattrRes := some ⟨5⟩, initialAttrs := ⟨5⟩,
    spawnRes := .error .osError }

/-- C2 (counterexample): when Popen fails, the exception escapes main
uncaught with the master and slave descriptors both still open, and no
close of either descriptor appears among the setup effects — the
handles are not released before the failure is reported. -/
theorem C2_counterexample :
    (setup envC2).1 = .uncaughtError .osError true true ∧
    SetupAction.closeSlaveA ∉ (setup envC2).2 := by
  decide

/-- C2 (amended): if spawning the child fails, the exception propagates
out of main as a fatal uncaught error, and the master and slave
pseudo-terminal handles are not released before the failure is
reported: both are still open when the exception escapes, and no
descriptor close appears among the setup effects. -/
theorem C2_spawn_failure_handles_not_released (env : MainEnv)
    (p cmd : String) (args : List String) (e : PyExc)
    (hargv : env.argv = p :: cmd :: args)
    (hspawn : env.spawnRes = .error e) :
    (setup env).1 = .uncaughtError e true true ∧
    SetupAction.closeSlaveA ∉ (setup env).2 := by
  unfold setup
  rw [hargv, hspawn]
  simp

/-- C2 witness: the amended statement at the concrete failing input. -/
theorem C2_spawn_failure_handles_not_released_witness :
    envC2.argv = "pty-wrapper.py" :: "no-such-program" :: [] ∧
    envC2.spawnRes = .error .osError ∧
    ((setup envC2).1 = .uncaughtError .osError true true ∧
      SetupAction.closeSlaveA ∉ (setup envC2).2) :=
  ⟨rfl, rfl,
    C2_spawn_failure_handles_not_released envC2 "pty-wrapper.py"
      "no-such-program" [] .osError rfl rfl⟩

/-- C3: with no command-line argument beyond the program name, main
prints the usage message to stderr and exits with status 1, and these
are the only effects: no terminal-attribute capture, no pty allocation,
no spawn, no handler installation. -/
theorem C3_usage_exit (env : MainEnv) (h : env.argv.length = 1) :
    setup env = (.usageExit 1, [.printUsage, .sysExitA 1]) := by
  rcases env with ⟨argv, envr, tg, ia, sp⟩
  rcases argv with _ | ⟨p, rest⟩
  · rfl
  · rcases rest with _ | ⟨q, rest2⟩
    · rfl
    · simp at h

/-- C3 witness: the usage exit at a concrete one-element argv. -/
def envC3 : MainEnv :=
  { argv := ["pty-wrapper.py"], environ := [("PATH", "/bin")],
    tcgetattrRes := none, initialAttrs := ⟨0⟩, spawnRes := .ok 42 }

/-- C3 witness: the theorem applied at the concrete input. -/
theorem C3_usage_exit_witness :
    envC3.argv.length = 1 ∧
    setup envC3 = (.usageExit 1, [.printUsage, .sysExitA 1]) :=
  ⟨rfl, C3_usage_exit envC3 rfl⟩

/-- C6: failing to capture the terminal attributes of stdin is
non-fatal — setup still reaches the relay loop, recording that there
are no attributes to restore — and cleanup attempts the restore step
exactly when attributes were captured. -/
theorem C6_capture_nonfatal_restore_iff (env : MainEnv)
    (cenv : CleanupEnv) (s : SessionState) (p cmd : String)
    (args : List String) (pid : Nat)
    (hargv : env.argv = p :: cmd :: args)
    (hcap : env.tcgetattrRes = none)
    (hspawn : env.spawnRes = .ok pid) :
    (∃ s2, (setup env).1 = .ready s2 ∧ s2.oldSettings = none) ∧
    ((cleanupBody cenv s).restoreAttempts =
      if s.oldSettings.isSome then s.restoreAttempts + 1
      else s.restoreAttempts) := by
  constructor
  · unfold setup
    rw [hargv, hspawn]
    exact ⟨_, rfl, by simp [hcap]⟩
  · exact cleanupBody_restoreAttempts cenv s

/-- C6 witness input: stdin is not a terminal, so tcgetattr raised. -/
def envC6 : MainEnv :=
  { argv := ["pty-wrapper.py", "cat"], environ := [],
    tcgetattrRes := none, initialAttrs := ⟨1⟩, spawnRes := .ok 7 }

/-- C6 witness session: attributes were captured here, so the restore
is attempted once. -/
def sC6 : SessionState :=
  { masterOpen := true, slaveOpen := false, masterCloseCount := 0,
    proc := .running, oldSettings := some ⟨9⟩, termAttrs := ⟨1⟩,
    restoreAttempts := 0 }

/-- C6 witness: the theorem applied at the concrete inputs. -/
theorem C6_capture_nonfatal_restore_iff_witness :
    envC6.argv = "pty-wrapper.py" :: "cat" :: [] ∧
    envC6.tcgetattrRes = none ∧ envC6.spawnRes = .ok 7 ∧
    ((∃ s2, (setup envC6).1 = .ready s2 ∧ s2.oldSettings = none) ∧
      ((cleanupBody cenvC1 sC6).restoreAttempts =
        if sC6.oldSettings.isSome then sC6.restoreAttempts + 1
        else sC6.restoreAttempts)) :=
  ⟨rfl, rfl, rfl,
    C6_capture_nonfatal_restore_iff envC6 cenvC1 sC6 "pty-wrapper.py"
      "cat" [] 7 rfl rfl rfl⟩

/-- C7: on a successful spawn the child argv is [command] + args, all
three child standard streams are bound to the slave side, the child is
placed in its own session, the parent environment is passed through
unchanged, and the setup effect trace shows the slave close immediately
after the spawn, leaving the slave closed in the parent state. -/
theorem C7_spawn_wiring (env : MainEnv) (p cmd : String)
    (args : List String) (pid : Nat)
    (hargv : env.argv = p :: cmd :: args)
    (hspawn : env.spawnRes = .ok pid) :
    ∃ s cfg,
      setup env =
        (.ready s,
         [.tcgetattrA env.tcgetattrRes.isSome, .openptyA, .spawnA cfg,
          .closeSlaveA, .installHandlers]) ∧
      cfg.argvList = cmd :: args ∧
      cfg.childStdin = .slaveFd ∧
      cfg.childStdout = .slaveFd ∧
      cfg.childStderr = .slaveFd ∧
      cfg.closeFds = true ∧
      cfg.newSession = true ∧
      cfg.environ = env.environ ∧
      s.slaveOpen = false := by
  unfold setup
  rw [hargv, hspawn]
  exact ⟨_, _, rfl, rfl, rfl, rfl, rfl, rfl, rfl, rfl, rfl⟩

/-- C7 witness input: a successful spawn with a nonempty environment. -/
def envC7 : MainEnv :=
  { argv := ["pty-wrapper.py", "bash", "-l"],
    environ := [("HOME", "/root"), ("TERM", "xterm")],
    tcgetattrRes := some ⟨2⟩, initialAttrs := ⟨2⟩, spawnRes := .ok 99 }

/-- C7 witness: the theorem applied at the concrete input. -/
theorem C7_spawn_wiring_witness :
    envC7.argv = "pty-wrapper.py" :: "bash" :: ["-l"] ∧
    envC7.spawnRes = .ok 99 ∧
    (∃ s cfg,
      setup envC7 =
        (.ready s,
         [.tcgetattrA envC7.tcgetattrRes.isSome, .openptyA, .spawnA cfg,
          .closeSlaveA, .installHandlers]) ∧
      cfg.argvList = "bash" :: ["-l"] ∧
      cfg.childStdin = .slaveFd ∧
      cfg.childStdout = .slaveFd ∧
      cfg.childStderr = .slaveFd ∧
      cfg.closeFds = true ∧
      cfg.newSession = true ∧
      cfg.environ = envC7.environ ∧
      s.slaveOpen = false) :=
  ⟨rfl, rfl, C7_spawn_wiring envC7 "pty-wrapper.py" "bash" ["-l"] 99 rfl rfl⟩

/-- A successful master read never escapes the loop body and never ends
the process; it only appends to the stdout chunks, leaving the session
and the master-side writes unchanged. -/
theorem masterForwardBranch_ok (r : Bool) (dm : List Nat) (st : LoopState) :
    ∃ st1 a1, masterForwardBranch r (.ok dm) st = .boOk st1 a1 ∧
      st1.session = st.session ∧ st1.masterWrites = st.masterWrites ∧
      (∀ x ∈ a1, phaseRank x = 1) := by
  cases r with
  | false => exact ⟨st, [], by simp [masterForwardBranch], rfl, rfl, by simp⟩
  | true =>
      by_cases h : dm = []
      · exact ⟨st, [.readMaster], by simp [masterForwardBranch, h], rfl, rfl,
          by simp [phaseRank]⟩
      · refine ⟨{ st with stdoutWrites := st.stdoutWrites ++ [dm] },
          [.readMaster, .writeStdout dm],
          by simp [masterForwardBranch, h], rfl, rfl, ?_⟩
        intro x hx
        simp only [List.mem_cons, List.not_mem_nil, or_false] at hx
        rcases hx with rfl | rfl <;> rfl

/-- A successful non-empty stdin read never escapes the loop body and
never ends the process; it at most appends to the master-side writes,
leaving the session unchanged. -/
theorem stdinForwardBranch_ok (cenv : CleanupEnv) (r : Bool)
    (ds : List Nat) (hds : ds ≠ []) (st : LoopState) :
    ∃ st1 a1, stdinForwardBranch cenv r (.ok ds) st = .boOk st1 a1 ∧
      st1.session = st.session ∧ st1.stdoutWrites = st.stdoutWrites ∧
      (∀ x ∈ a1, phaseRank x = 2) := by
  cases r with
  | false => exact ⟨st, [], by simp [stdinForwardBranch], rfl, rfl, by simp⟩
  | true =>
      by_cases hmo : st.session.masterOpen
      · refine ⟨{ st with masterWrites := st.masterWrites ++ [ds] },
          [.readStdin, .writeMaster ds],
          by simp [stdinForwardBranch, hds, hmo], rfl, rfl, ?_⟩
        intro x hx
        simp only [List.mem_cons, List.not_mem_nil, or_false] at hx
        rcases hx with rfl | rfl <;> rfl
      · exact ⟨st, [.readStdin],
          by simp [stdinForwardBranch, hds, hmo], rfl, rfl,
          by simp [phaseRank]⟩

/-- An stdin read that reports EOF calls cleanup, whose sys.exit(0)
ends the process with status 0. -/
theorem stdinForwardBranch_eof (cenv : CleanupEnv) (st : LoopState) :
    stdinForwardBranch cenv true (.ok []) st =
      .boExit 0 { st with session := cleanupBody cenv st.session }
        [.readStdin, .cleanupRun, .sysExitCall 0] := by
  simp [stdinForwardBranch]

/-- When the child is still running and the poll oracle reports an exit
status, the exit check reaps the child, runs cleanup and ends the
process with status 0. -/
theorem pollBranch_exit (cenv : CleanupEnv) (i : IterInput)
    (st : LoopState) (c : Int) (hproc : st.session.proc = .running)
    (hpoll : i.pollRes = some c) :
    pollBranch cenv i st =
      .boExit 0
        { st with session :=
            cleanupBody cenv { st.session with proc := .reaped c } }
        [.pollChild, .cleanupRun, .sysExitCall 0] := by
  unfold pollBranch pollProc
  rw [hproc, hpoll]

/-- When the child is still running and the poll oracle reports nothing,
the exit check changes no state and the loop continues. -/
theorem pollBranch_running (cenv : CleanupEnv) (i : IterInput)
    (st : LoopState) (hproc : st.session.proc = .running)
    (hpoll : i.pollRes = none) :
    pollBranch cenv i st = .boOk st [.pollChild] := by
  unfold pollBranch pollProc
  rw [hproc, hpoll]

/-- C4: whenever the non-blocking poll reports that the child exited —
with any status c, zero or not — the iteration that observes it runs
cleanup and terminates the whole program with exit status 0 during that
same iteration, never consuming the rest of the input trace; the final
state has the master closed and records the child status as reaped c,
which is not propagated. -/
theorem C4_child_exit_exits_zero (cenv : CleanupEnv) (i : IterInput)
    (rest : List IterInput) (st : LoopState) (mr sr : Bool)
    (dm ds : List Nat) (c : Int)
    (hsel : i.selectRes = .ok (mr, sr))
    (hm : i.masterRead = .ok dm)
    (hs : i.stdinRead = .ok ds) (hds : ds ≠ [])
    (hproc : st.session.proc = .running)
    (hpoll : i.pollRes = some c) :
    ∃ st2, runLoop cenv (i :: rest) st = .exited 0 st2 ∧
      st2.session.masterOpen = false ∧
      st2.session.proc = .reaped c := by
  obtain ⟨st1, a1, hM, hMs, _, _⟩ := masterForwardBranch_ok mr dm st
  obtain ⟨st2, a2, hS, hSs, _, _⟩ := stdinForwardBranch_ok cenv sr ds hds st1
  have hproc2 : st2.session.proc = .running := by
    rw [hSs, hMs]; exact hproc
  have hP := pollBranch_exit cenv i st2 c hproc2 hpoll
  have hIter : (runIter cenv i st).1 =
      .sysExit 0
        { st2 with session :=
            cleanupBody cenv { st2.session with proc := .reaped c } } := by
    simp only [runIter, hsel, hm, hs, hM, hS, hP]
  refine ⟨{ st2 with session := cleanupBody cenv { st2.session with proc := .reaped c } }, ?_, ?_, ?_⟩
  · simp only [runLoop, hIter]
  · exact cleanupBody_masterOpen cenv _
  · exact cleanupBody_proc_reaped cenv _ c rfl

/-- C4 witness inputs: a quiet iteration in which the poll reports that
the child exited with the non-zero status 3. -/
def iC4 : IterInput :=
  { selectRes := .ok (false, false), masterRead := .ok [],
    stdinRead := .ok [1], pollRes := some 3 }

/-- C4 witness loop state: the session right after a successful setup. -/
def stC4 : LoopState :=
  { session :=
      { masterOpen := true, slaveOpen := false, masterCloseCount := 0,
        proc := .running, oldSettings := some ⟨4⟩, termAttrs := ⟨4⟩,
        restoreAttempts := 0 },
    stdoutWrites := [], masterWrites := [] }

/-- C4 witness: the theorem applied at the concrete inputs. -/
theorem C4_child_exit_exits_zero_witness :
    iC4.selectRes = .ok (false, false) ∧ iC4.masterRead = .ok [] ∧
    iC4.stdinRead = .ok [1] ∧ ([1] : List Nat) ≠ [] ∧
    stC4.session.proc = .running ∧ iC4.pollRes = some 3 ∧
    (∃ st2, runLoop cenvC1 (iC4 :: []) stC4 = .exited 0 st2 ∧
      st2.session.masterOpen = false ∧
      st2.session.proc = .reaped 3) :=
  ⟨rfl, rfl, rfl, by decide, rfl, rfl,
    C4_child_exit_exits_zero cenvC1 iC4 [] stC4 false false [] [1] 3
      rfl rfl rfl (by decide) rfl rfl⟩

/-- C5: a zero-byte read from standard input is treated as end of
input: in the very iteration in which stdin is readable and the read
returns the empty chunk, the loop calls cleanup and the process exits
with status 0 — it neither raises nor ignores the condition — without
consuming the rest of the input trace; the master is closed and the
restore was attempted exactly when attributes had been captured. -/
theorem C5_stdin_eof_exits_zero (cenv : CleanupEnv) (i : IterInput)
    (rest : List IterInput) (st : LoopState) (mr : Bool) (dm : List Nat)
    (hsel : i.selectRes = .ok (mr, true))
    (hm : i.masterRead = .ok dm)
    (hs : i.stdinRead = .ok []) :
    ∃ st2, runLoop cenv (i :: rest) st = .exited 0 st2 ∧
      st2.session.masterOpen = false ∧
      st2.session.restoreAttempts =
        (if st.session.oldSettings.isSome then
          st.session.restoreAttempts + 1
        else st.session.restoreAttempts) := by
  obtain ⟨st1, a1, hM, hMs, _, _⟩ := masterForwardBranch_ok mr dm st
  have hS := stdinForwardBranch_eof cenv st1
  have hIter : (runIter cenv i st).1 =
      .sysExit 0 { st1 with session := cleanupBody cenv st1.session } := by
    simp only [runIter, hsel, hm, hs, hM, hS]
  refine ⟨{ st1 with session := cleanupBody cenv st1.session }, ?_, ?_, ?_⟩
  · simp only [runLoop, hIter]
  · exact cleanupBody_masterOpen cenv _
  · rw [cleanupBody_restoreAttempts cenv _, hMs]

/-- C5 witness input: stdin readable and at EOF, master quiet. -/
def iC5 : IterInput :=
  { selectRes := .ok (false, true), masterRead := .ok [],
    stdinRead := .ok [], pollRes := none }

/-- C5 witness: the theorem applied at the concrete inputs. -/
theorem C5_stdin_eof_exits_zero_witness :
    iC5.selectRes = .ok (false, true) ∧ iC5.masterRead = .ok [] ∧
    iC5.stdinRead = .ok [] ∧
    (∃ st2, runLoop cenvC1 (iC5 :: []) stC4 = .exited 0 st2 ∧
      st2.session.masterOpen = false ∧
      st2.session.restoreAttempts =
        (if stC4.session.oldSettings.isSome then
          stC4.session.restoreAttempts + 1
        else stC4.session.restoreAttempts)) :=
  ⟨rfl, rfl, rfl,
    C5_stdin_eof_exits_zero cenvC1 iC5 [] stC4 false [] rfl rfl rfl⟩

/-- C9: whenever an Exception escapes the body of the relay loop — any
outcome the iteration classifies as an escaping Exception, such as a
non-OSError raised by a read or a failure of select itself — the
catch-all handler at the end of the loop runs cleanup, and the process
exits with status 0 with the master closed rather than dying with an
uncaught traceback. -/
theorem C9_catchall_runs_cleanup (cenv : CleanupEnv) (i : IterInput)
    (rest : List IterInput) (st : LoopState) (e : PyExc)
    (st1 : LoopState) (acts : List Action)
    (h : runIter cenv i st = (.exc e st1, acts)) :
    runLoop cenv (i :: rest) st =
      .exited 0 { st1 with session := cleanupBody cenv st1.session } ∧
    (cleanupBody cenv st1.session).masterOpen = false := by
  have h1 : (runIter cenv i st).1 = .exc e st1 := by rw [h]
  exact ⟨by simp only [runLoop, h1], cleanupBody_masterOpen cenv st1.session⟩

/-- C9 witness input: select itself raises a non-OSError Exception. -/
def iC9 : IterInput :=
  { selectRes := .error (.other 7), masterRead := .ok [],
    stdinRead := .ok [], pollRes := none }

/-- C9 witness: the theorem applied at the concrete inputs. -/
theorem C9_catchall_runs_cleanup_witness :
    runIter cenvC1 iC9 stC4 =
      (.exc (.other 7) stC4, [.selectWait selectTimeoutMs]) ∧
    (runLoop cenvC1 (iC9 :: []) stC4 =
        .exited 0 { stC4 with session := cleanupBody cenvC1 stC4.session } ∧
      (cleanupBody cenvC1 stC4.session).masterOpen = false) :=
  ⟨rfl, C9_catchall_runs_cleanup cenvC1 iC9 [] stC4 (.other 7) stC4
    [.selectWait selectTimeoutMs] rfl⟩

/-- C10: a zero-byte read from the master is silently ignored — with
stdin quiet and the child still running the iteration writes nothing to
standard output, triggers no shutdown, and leaves the loop state
completely unchanged; the session ends only when, for an otherwise
identical iteration, the non-blocking poll observes the child exit, in
which case the process exits with status 0. -/
theorem C10_master_eof_ignored (cenv : CleanupEnv) (i j : IterInput)
    (st : LoopState) (c : Int)
    (hsel : i.selectRes = .ok (true, false))
    (hm : i.masterRead = .ok [])
    (hproc : st.session.proc = .running)
    (hpoll : i.pollRes = none)
    (hsel2 : j.selectRes = .ok (true, false))
    (hm2 : j.masterRead = .ok [])
    (hpoll2 : j.pollRes = some c) :
    runIter cenv i st =
      (.next st, [.selectWait selectTimeoutMs, .readMaster, .pollChild]) ∧
    (∃ st2, (runIter cenv j st).1 = .sysExit 0 st2) := by
  have hMi : masterForwardBranch true (.ok ([] : List Nat)) st =
      .boOk st [.readMaster] := by
    simp [masterForwardBranch]
  constructor
  · have hP := pollBranch_running cenv i st hproc hpoll
    simp only [runIter, hsel, hm, hMi, stdinForwardBranch, Bool.false_eq_true,
      if_false, hP]
    rfl
  · have hP := pollBranch_exit cenv j st c hproc hpoll2
    refine ⟨{ st with session := cleanupBody cenv { st.session with proc := .reaped c } }, ?_⟩
    simp only [runIter, hsel2, hm2, hMi, stdinForwardBranch, Bool.false_eq_true,
      if_false, hP]

/-- C10 witness inputs: the master reports EOF; in the first iteration
the child still runs, in the second the poll reports exit status 5. -/
def iC10a : IterInput :=
  { selectRes := .ok (true, false), masterRead := .ok [],
    stdinRead := .ok [], pollRes := none }

/-- C10 witness second input: same readiness, but the poll sees the
child exit. -/
def iC10b : IterInput :=
  { selectRes := .ok (true, false), masterRead := .ok [],
    stdinRead := .ok [], pollRes := some 5 }

/-- C10 witness: the theorem applied at the concrete inputs. -/
theorem C10_master_eof_ignored_witness :
    iC10a.selectRes = .ok (true, false) ∧ iC10a.masterRead = .ok [] ∧
    stC4.session.proc = .running ∧ iC10a.pollRes = none ∧
    iC10b.selectRes = .ok (true, false) ∧ iC10b.masterRead = .ok [] ∧
    iC10b.pollRes = some 5 ∧
    (runIter cenvC1 iC10a stC4 =
        (.next stC4,
         [.selectWait selectTimeoutMs, .readMaster, .pollChild]) ∧
      (∃ st2, (runIter cenvC1 iC10b stC4).1 = .sysExit 0 st2)) :=
  ⟨rfl, rfl, rfl, rfl, rfl, rfl, rfl,
    C10_master_eof_ignored cenvC1 iC10a iC10b stC4 5
      rfl rfl rfl rfl rfl rfl rfl⟩

/-- The master branch either falls through or escapes with an
Exception; in both cases its events are all master-forwarding events. -/
theorem masterForwardBranch_shapes (r : Bool)
    (res : Except PyExc (List Nat)) (st : LoopState) :
    (∃ st1 a1, masterForwardBranch r res st = .boOk st1 a1 ∧
      ∀ x ∈ a1, phaseRank x = 1) ∨
    (∃ e st1 a1, masterForwardBranch r res st = .boExc e st1 a1 ∧
      ∀ x ∈ a1, phaseRank x = 1) := by
  cases r with
  | false => exact .inl ⟨st, [], by simp [masterForwardBranch], by simp⟩
  | true =>
      rcases res with e | d
      · rcases e with _ | t
        · exact .inl ⟨st, [.readMaster],
            by simp [masterForwardBranch], by simp [phaseRank]⟩
        · exact .inr ⟨.other t, st, [.readMaster],
            by simp [masterForwardBranch], by simp [phaseRank]⟩
      · obtain ⟨st1, a1, hM, _, _, hr⟩ := masterForwardBranch_ok true d st
        exact .inl ⟨st1, a1, hM, hr⟩

/-- The stdin branch either falls through with stdin-forwarding events
only, escapes with an Exception, or ends the process via cleanup with
the EOF event list. -/
theorem stdinForwardBranch_shapes (cenv : CleanupEnv) (r : Bool)
    (res : Except PyExc (List Nat)) (st : LoopState) :
    (∃ st1 a1, stdinForwardBranch cenv r res st = .boOk st1 a1 ∧
      ∀ x ∈ a1, phaseRank x = 2) ∨
    (∃ e st1 a1, stdinForwardBranch cenv r res st = .boExc e st1 a1 ∧
      ∀ x ∈ a1, phaseRank x = 2) ∨
    (∃ st1, stdinForwardBranch cenv r res st =
      .boExit 0 st1 [.readStdin, .cleanupRun, .sysExitCall 0]) := by
  cases r with
  | false => exact .inl ⟨st, [], by simp [stdinForwardBranch], by simp⟩
  | true =>
      rcases res with e | d
      · rcases e with _ | t
        · exact .inl ⟨st, [.readStdin],
            by simp [stdinForwardBranch], by simp [phaseRank]⟩
        · exact .inr (.inl ⟨.other t, st, [.readStdin],
            by simp [stdinForwardBranch], by simp [phaseRank]⟩)
      · by_cases hd : d = []
        · subst hd
          exact .inr (.inr ⟨_, stdinForwardBranch_eof cenv st⟩)
        · obtain ⟨st1, a1, hS, _, _, hr⟩ :=
            stdinForwardBranch_ok cenv true d hd st
          exact .inl ⟨st1, a1, hS, hr⟩

/-- The exit check either lets the loop continue or ends the process
with status 0; its event lists are fixed. -/
theorem pollBranch_shapes (cenv : CleanupEnv) (i : IterInput)
    (st : LoopState) :
    (∃ st1, pollBranch cenv i st = .boOk st1 [.pollChild]) ∨
    (∃ st1, pollBranch cenv i st =
      .boExit 0 st1 [.pollChild, .cleanupRun, .sysExitCall 0]) := by
  unfold pollBranch
  rcases hpp : pollProc i st.session with ⟨_ | c, s2⟩
  · exact .inl ⟨_, rfl⟩
  · exact .inr ⟨_, rfl⟩

/-- A list of naturals all equal to the same value is sorted. -/
theorem sorted_le_of_const (l : List Nat) (k : Nat) (h : ∀ x ∈ l, x = k) :
    List.Sorted (· ≤ ·) l := by
  induction l with
  | nil => exact List.sorted_nil
  | cons a tl ih =>
      rw [List.sorted_cons]
      refine ⟨?_, ih fun x hx => h x (List.mem_cons_of_mem a hx)⟩
      intro b hb
      rw [h a (List.mem_cons_self a tl), h b (List.mem_cons_of_mem a hb)]

/-- Two sorted lists concatenate to a sorted list when every element of
the first is at most every element of the second. -/
theorem sorted_le_append (l1 l2 : List Nat)
    (h1 : List.Sorted (· ≤ ·) l1) (h2 : List.Sorted (· ≤ ·) l2)
    (h12 : ∀ x ∈ l1, ∀ y ∈ l2, x ≤ y) :
    List.Sorted (· ≤ ·) (l1 ++ l2) :=
  List.pairwise_append.2 ⟨h1, h2, h12⟩

/-- The event trace of one iteration is phase-sorted: the multiplexed
wait, then only master-forwarding events, then only stdin-forwarding
events, then a phase-sorted tail of exit-check and shutdown events. -/
theorem sorted_phase_trace (t : Nat) (a1 a2 a3 : List Action)
    (h1 : ∀ x ∈ a1, phaseRank x = 1)
    (h2 : ∀ x ∈ a2, phaseRank x = 2)
    (h3 : List.Sorted (· ≤ ·) (a3.map phaseRank))
    (h3lo : ∀ x ∈ a3, 2 ≤ phaseRank x) :
    List.Sorted (· ≤ ·)
      ((Action.selectWait t :: (a1 ++ a2 ++ a3)).map phaseRank) := by
  rw [List.map_cons, List.sorted_cons]
  constructor
  · intro b _
    exact Nat.zero_le b
  · rw [List.map_append, List.map_append]
    apply sorted_le_append
    · apply sorted_le_append
      · refine sorted_le_of_const _ 1 ?_
        intro x hx
        obtain ⟨a, ha, rfl⟩ := List.mem_map.1 hx
        exact h1 a ha
      · refine sorted_le_of_const _ 2 ?_
        intro x hx
        obtain ⟨a, ha, rfl⟩ := List.mem_map.1 hx
        exact h2 a ha
      · intro x hx y hy
        obtain ⟨a, ha, rfl⟩ := List.mem_map.1 hx
        obtain ⟨b, hb, rfl⟩ := List.mem_map.1 hy
        rw [h1 a ha, h2 b hb]
        exact Nat.le_succ 1
    · exact h3
    · intro x hx y hy
      obtain ⟨b, hb, rfl⟩ := List.mem_map.1 hy
      have hyb := h3lo b hb
      rcases List.mem_append.1 hx with hx1 | hx2
      · obtain ⟨a, ha, rfl⟩ := List.mem_map.1 hx1
        rw [h1 a ha]
        omega
      · obtain ⟨a, ha, rfl⟩ := List.mem_map.1 hx2
        rw [h2 a ha]
        omega

/-- C8: in every iteration of the relay loop, whatever the oracle
results, the multiplexed wait comes first and carries the 100 ms
timeout, and the event trace is sorted by phase: all master-to-stdout
forwarding events precede all stdin-to-master forwarding events, which
precede the child-exit poll (and any shutdown events come last). -/
theorem C8_wait_timeout_and_fixed_order (cenv : CleanupEnv)
    (i : IterInput) (st : LoopState) :
    selectTimeoutMs = 100 ∧
    (∃ tl, (runIter cenv i st).2 = Action.selectWait selectTimeoutMs :: tl) ∧
    List.Sorted (· ≤ ·) ((runIter cenv i st).2.map phaseRank) := by
  refine ⟨rfl, ?_⟩
  rcases hsel : i.selectRes with e | ⟨mR, sR⟩
  · simp only [runIter, hsel]
    exact ⟨⟨[], rfl⟩, by decide⟩
  · rcases masterForwardBranch_shapes mR i.masterRead st with
      ⟨st1, a1, hM, hr1⟩ | ⟨e, st1, a1, hM, hr1⟩
    · rcases stdinForwardBranch_shapes cenv sR i.stdinRead st1 with
        ⟨st2, a2, hS, hr2⟩ | ⟨e, st2, a2, hS, hr2⟩ | ⟨st2, hS⟩
      · rcases pollBranch_shapes cenv i st2 with ⟨st3, hP⟩ | ⟨st3, hP⟩
        · simp only [runIter, hsel, hM, hS, hP]
          refine ⟨⟨_, rfl⟩, ?_⟩
          exact sorted_phase_trace _ a1 a2 [.pollChild] hr1 hr2
            (by decide) (by decide)
        · simp only [runIter, hsel, hM, hS, hP]
          refine ⟨⟨_, rfl⟩, ?_⟩
          exact sorted_phase_trace _ a1 a2
            [.pollChild, .cleanupRun, .sysExitCall 0] hr1 hr2
            (by decide) (by decide)
      · simp only [runIter, hsel, hM, hS]
        refine ⟨⟨_, rfl⟩, ?_⟩
        have := sorted_phase_trace selectTimeoutMs a1 a2 [] hr1 hr2
          (by decide) (by decide)
        simpa using this
      · simp only [runIter, hsel, hM, hS]
        refine ⟨⟨_, rfl⟩, ?_⟩
        have := sorted_phase_trace selectTimeoutMs a1 []
          [.readStdin, .cleanupRun, .sysExitCall 0] hr1 (by simp)
          (by decide) (by decide)
        simpa using this
    · simp only [runIter, hsel, hM]
      refine ⟨⟨_, rfl⟩, ?_⟩
      have := sorted_phase_trace selectTimeoutMs a1 [] [] hr1 (by simp)
        (by decide) (by decide)
      simpa using this

end PtyWrapper
